import Mathlib

/-!
Shallow embedding of `graphql_schema_parse/src.py` (the schema-walking and
query-synthesis engine of zy7y/graphql-schema-parse), together with proofs
about the claims of its specification.

Conventions of the embedding:
* Python strings are Lean `String`s; `str.find`, slicing and `endswith` are
  modelled with Python semantics (`pyFind`, `pySlice`, `endsBang`).
* Python dicts that the engine iterates are modelled as association lists in
  iteration (= insertion/declaration) order; `d[k] = v` is `dictInsert`
  (update in place when the key exists, append otherwise).
* `raise` is modelled with `Except`; the unbounded recursion of
  `get_variables` over (possibly cyclic) input-object types gets an explicit
  fuel parameter, `VarsError.outOfFuel` standing for Python's RecursionError.
* The URL regular-expression test of `make_action` is abstracted into a
  boolean parameter `is_url`; everything after that test is embedded.
-/

/-- Python `s.find(c)`: index of the first occurrence, `-1` when absent. -/
def pyFind (s : String) (c : Char) : Int :=
  match s.data.findIdx? (fun x => x == c) with
  | some i => Int.ofNat i
  | none => -1

/-- Normalize one Python slice index against a length: negative indices count
from the end, then the result is clamped into `[0, len]`. -/
def pyIdx (len : Nat) (i : Int) : Nat :=
  ((if i < 0 then i + len else i).toNat).min len

/-- Python `s[a:b]`. -/
def pySlice (s : String) (a b : Int) : String :=
  String.mk ((s.data.take (pyIdx s.data.length b)).drop (pyIdx s.data.length a))

/-- Python `s.endswith("!")`. -/
def endsBang (s : String) : Bool :=
  s.data.getLast? == some '!'

/-- Python `s[0:-1]` applied when `s` ends with `!` (the nullability strip). -/
def stripBang (s : String) : String :=
  if endsBang s then String.mk s.data.dropLast else s

/-- The type-reference parsing step shared verbatim by `get_return_obj`
(src.py lines 108-115) and `get_variables` (lines 136-147): when the string
contains `[`, keep the part strictly between the first `[` and the first `]`
and set the list flag; then drop one trailing `!`. -/
def stripRef (t : String) : String × Bool :=
  if pyFind t '[' == -1 then
    (stripBang t, false)
  else
    (stripBang (pySlice t (pyFind t '[' + 1) (pyFind t ']')), true)

/-- Python `path.split(".")[-1]`: the part after the last dot (the whole
string when there is no dot), used by `make_action` to pick a parser. -/
def pathSuffix (p : String) : String :=
  String.mk ((p.data.reverse.takeWhile (fun c => c != '.')).reverse)

/-- Default values produced by the synthesizer (a fragment of Python's data
model: ints, strings, the float literal `0.0`, booleans, lists, dicts). -/
inductive GVal where
  | vInt (n : Int)
  | vStr (s : String)
  | vFloat (n : Int)
  | vBool (b : Bool)
  | vList (xs : List GVal)
  | vObj (fields : List (String × GVal))

/-- A field / argument definition: its raw type-reference string and (for
root and object fields) its ordered argument map. -/
structure GField where
  typeRef : String
  args : List (String × String)

/-- A named type of the schema's type map. `inputObject` fields map a name to
a type-reference string; `object` fields carry full field definitions. -/
inductive TypeDef where
  | scalar (name : String)
  | inputObject (name : String) (fields : List (String × String))
  | object (name : String) (fields : List (String × GField))

/-- Python `type_obj.name`. -/
def TypeDef.tname : TypeDef → String
  | TypeDef.scalar n => n
  | TypeDef.inputObject n _ => n
  | TypeDef.object n _ => n

/-- The schema: a type map plus the three optional root types (a root being
present means it has an ordered field map). -/
structure GSchema where
  type_map : List (String × TypeDef)
  query_type : Option (List (String × GField))
  mutation_type : Option (List (String × GField))
  subscription_type : Option (List (String × GField))

/-- Python `self.schemas.type_map.get(name)`. -/
def lookupType (s : GSchema) (n : String) : Option TypeDef :=
  match s.type_map.find? (fun p => p.1 == n) with
  | some p => some p.2
  | none => none

/-- The fixed scalar-default table `GraphqlDocsParse.scalar_default`
(src.py lines 41-50). -/
def scalar_default : List (String × GVal) :=
  [(("Int"), GVal.vInt 0),
   (("String"), GVal.vStr ("")),
   (("ID"), GVal.vInt 0),
   (("Date"), GVal.vStr ("2022-01-24")),
   (("DateTime"), GVal.vStr ("2022-01-24")),
   (("Float"), GVal.vFloat 0),
   (("Boolean"), GVal.vBool false),
   (("JSON"), GVal.vStr ("JSON"))]

/-- Membership/lookup in the scalar-default table (Python's
`type_obj.name in GraphqlDocsParse.scalar_default` and the dict access). -/
def scalarLookup (n : String) : Option GVal :=
  match scalar_default.find? (fun p => p.1 == n) with
  | some p => some p.2
  | none => none

/-- The scan-mode substitution list `GraphqlDocsParse.sqlmap_regx`. -/
def sqlmap_regx : List String :=
  [("String"), ("Date"), ("JSON")]

/-- Python `data_map[k] = v`: update in place when the key exists (keeping
its position), append otherwise. -/
def dictInsert (dm : List (String × GVal)) (k : String) (v : GVal) :
    List (String × GVal) :=
  if dm.any (fun p => p.1 == k) then
    dm.map (fun p => if p.1 == k then (k, v) else p)
  else dm ++ [(k, v)]

/-- Errors `get_variables` can raise: `attrError` is the AttributeError from
`type_obj.name` when the type-map lookup returned `None`; `typeError` is the
explicit `raise TypeError(...)` naming the unresolved base name; `outOfFuel`
stands for Python's RecursionError on cyclic input types. -/
inductive VarsError where
  | attrError
  | typeError (name : String)
  | outOfFuel
deriving DecidableEq

/-- The loop body of `GraphqlDocsParse.get_variables` (src.py lines 119-175).
`m` is `is_sqlmap`. Faithful points: on an InputObject the current `data_map`
is passed into the recursion (so nested synthesis starts from the entries
accumulated so far) and the result of the loop iteration is the REBINDING
`data_map = {k: variablesMap}` — a one-entry dict — not an insertion. -/
def get_vars_loop (s : GSchema) (m : Bool) :
    Nat → List (String × String) → List (String × GVal) →
    Except VarsError (List (String × GVal))
  | _, [], dm => Except.ok dm
  | 0, _ :: _, _ => Except.error VarsError.outOfFuel
  | Nat.succ f, (k, tref) :: rest, dm =>
    match lookupType s (stripRef tref).1 with
    | some (TypeDef.inputObject _ tfields) =>
      (match get_vars_loop s m f tfields dm with
       | Except.error e => Except.error e
       | Except.ok variablesMap =>
         get_vars_loop s m f rest
           (if (stripRef tref).2 then [(k, GVal.vList [GVal.vObj variablesMap])]
            else [(k, GVal.vObj variablesMap)]))
    | some t =>
      (match scalarLookup t.tname with
       | some d =>
         get_vars_loop s m f rest
           (dictInsert dm k
             (if (stripRef tref).2 then
                GVal.vList [if m && sqlmap_regx.contains t.tname then GVal.vStr ("*") else d]
              else (if m && sqlmap_regx.contains t.tname then GVal.vStr ("*") else d)))
       | none => Except.error (VarsError.typeError (stripRef tref).1))
    | none => Except.error VarsError.attrError

/-- `GraphqlDocsParse.get_variables`: entry point (Python's `data_map=None`
default becomes the explicit accumulator `dm`, `{}` at top level). -/
def get_variables (fuel : Nat) (s : GSchema) (items : List (String × String))
    (dm : List (String × GVal)) (m : Bool) :
    Except VarsError (List (String × GVal)) :=
  get_vars_loop s m fuel items dm

/-- `GraphqlDocsParse.get_return_obj` (src.py lines 106-117): strip the type
reference and look the base name up in the type map (`dict.get`, so `none`
rather than an exception when absent). -/
def get_return_obj (s : GSchema) (typeRef : String) : Option TypeDef :=
  lookupType s (stripRef typeRef).1

/-- `GraphqlDocsParse.find_fields` (src.py lines 177-202): walk the fields of
an object type in declaration order; descend into object-typed fields while
the depth budget is nonzero, skip them at depth zero, emit scalar/unresolved
fields as bare names. -/
def find_fields (s : GSchema) : Nat → List (String × GField) → List String
  | 0, fields =>
    fields.flatMap (fun kv =>
      match get_return_obj s kv.2.typeRef with
      | some (TypeDef.object _ _) => []
      | _ => [kv.1])
  | Nat.succ d, fields =>
    fields.flatMap (fun kv =>
      match get_return_obj s kv.2.typeRef with
      | some (TypeDef.object _ sub) =>
        ((kv.1 ++ ("\x7b")) :: find_fields s d sub) ++ [("\x7d")]
      | _ => [kv.1])

/-- Sequential concatenation of rendered pieces (the Jinja for-loop body). -/
def concatAll : List String → String
  | [] => ("")
  | x :: xs => x ++ concatAll xs

/-- `GraphqlDocsParse.query_template` (src.py lines 70-104): the Jinja
template rendered with default whitespace handling. Literal text between the
template tags is reproduced exactly (line 1 has one leading space; the
continuation lines have 8, 17, 17, 13, 8 and 8 leading spaces). `none`
stands for Python `None`; an `{% if %}` on an empty string is also falsy. -/
def query_template (is_type operationName : String)
    (vars resolveVars : Option String) (args : List String) : String :=
  (" ") ++ is_type ++ (" ") ++ operationName ++ (" ") ++
  (match vars with
   | some v => v
   | none => ("")) ++
  ("\x7b\n        ") ++ operationName ++
  (match resolveVars with
   | some r => if r == ("") then ("") else (" ") ++ r
   | none => ("")) ++
  (if args.isEmpty then ("")
   else
     ("\x7b\n                 ") ++
     concatAll (args.map (fun a => (" ") ++ a ++ ("\n                 "))) ++
     ("\x7d\n             ")) ++
  ("\n        \x7d\n        ")

/-- The accumulation `vars_str += f"${k}: {v.type}, "` of `get_query_str`
(each iteration appends one rendered f-string). -/
def varsFold (args : List (String × String)) : String :=
  args.foldl (fun acc kt => acc ++ (("$") ++ kt.1 ++ (": ") ++ kt.2 ++ (", "))) ("")

/-- The accumulation `resolve_str += f"{k}: ${k}, "` of `get_query_str`
(each iteration appends one rendered f-string). -/
def resolveFold (args : List (String × String)) : String :=
  args.foldl (fun acc kt => acc ++ (kt.1 ++ (": $") ++ kt.1 ++ (", "))) ("")

/-- The selection part of `get_query_str`: fields are collected only when the
root field's resolved return type is an object type. -/
def selectionOf (s : GSchema) (f : GField) (depth : Nat) : List String :=
  match get_return_obj s f.typeRef with
  | some (TypeDef.object _ sub) => find_fields s depth sub
  | _ => []

/-- `GraphqlDocsParse.get_query_str` (src.py lines 204-242): build both
argument clauses (dropping the trailing `", "` via Python's `[0:-2]`), pass
`None` for both when there are no arguments, and render the template. -/
def get_query_str (s : GSchema) (is_type query_name : String) (field : GField)
    (depth : Nat) : String :=
  query_template is_type query_name
    (if varsFold field.args == ("") then none
     else some (("(") ++ pySlice (varsFold field.args) 0 (-2) ++ (")")))
    (if varsFold field.args == ("") then none
     else some (("(") ++ pySlice (resolveFold field.args) 0 (-2) ++ (")")))
    (selectionOf s field depth)

/-- One entry of the `json_queue`. -/
structure Record where
  query : String
  variablesMap : List (String × GVal)
  operationName : String

/-- The inner loop of `GraphqlDocsParse.load_query` over one root type's
fields: queue one record per field until `get_variables` raises; the records
queued before the failure stay queued, the failing field and every later
sibling produce nothing. -/
def load_fields (s : GSchema) (fuel depth : Nat) (m : Bool) (tn : String) :
    List (String × GField) → List Record × Option VarsError
  | [] => ([], none)
  | (k, f) :: rest =>
    match get_variables fuel s f.args [] m with
    | Except.error e => ([], some e)
    | Except.ok vars =>
      match load_fields s fuel depth m tn rest with
      | (rs, err) =>
        ({ query := get_query_str s tn k f depth, variablesMap := vars,
           operationName := k } :: rs, err)

/-- The outer loop of `load_query` over the root kinds: a missing root type
(`hasattr(gql_type, "fields")` false) is skipped silently; an exception stops
the whole run. -/
def load_roots (s : GSchema) (fuel depth : Nat) (m : Bool) :
    List (String × Option (List (String × GField))) →
    List Record × Option VarsError
  | [] => ([], none)
  | (tn, root) :: rest =>
    match root with
    | none => load_roots s fuel depth m rest
    | some fields =>
      match load_fields s fuel depth m tn fields with
      | (rs, some e) => (rs, some e)
      | (rs, none) =>
        match load_roots s fuel depth m rest with
        | (rs2, err) => (rs ++ rs2, err)

/-- `GraphqlDocsParse.load_query` (src.py lines 244-261): the three operation
kinds in the fixed order query, mutation, subscription. Result: the queued
records plus the exception that aborted the run, if any. -/
def load_query (s : GSchema) (fuel depth : Nat) (m : Bool) :
    List Record × Option VarsError :=
  load_roots s fuel depth m
    [(("query"), s.query_type),
     (("mutation"), s.mutation_type),
     (("subscription"), s.subscription_type)]

/-- Observable effects of `make_action` that the error-handling claims are
about: loading a schema (`parse_obj.start`) and writing one output file per
record (`async_write`). -/
inductive Eff where
  | loadSchema
  | writeFile (opName : String) (ext : String)

/-- Whether an effect is a file write. -/
def Eff.isWrite : Eff → Bool
  | Eff.writeFile _ _ => true
  | _ => false

/-- Errors `make_action` can raise itself or propagate: the
`raise ValueError` for an unrecognized source, the final `raise TypeError`
for an unsupported output kind, and a propagated synthesis error. -/
inductive RunError where
  | valueError
  | unsupportedType
  | varsErr (e : VarsError)

/-- `parse_obj.start` followed by an emitter's `async_write`: load the
schema, run `load_query`; when synthesis raised, the exception propagates
before any file is written, otherwise one file per queued record is written
and the count is returned. -/
def runEmit (s : GSchema) (fuel depth : Nat) (m : Bool) (ext : String) :
    List Eff × Except RunError Nat :=
  match load_query s fuel depth m with
  | (_, some e) => ([Eff.loadSchema], Except.error (RunError.varsErr e))
  | (rs, none) =>
    (Eff.loadSchema :: rs.map (fun r => Eff.writeFile r.operationName ext),
     Except.ok rs.length)

/-- `make_action` (src.py lines 425-466). The regex test
`re.match(url_regx, path)` is abstracted into the boolean `is_url`; the rest
is embedded: a URL source with the sqlmap kind runs scan-mode synthesis and
writes `.txt` files; otherwise any URL source or a `.json`/`.graphql` suffix
loads and synthesizes (plain mode) and then dispatches on the output kind,
raising `TypeError` on an unsupported kind; any other source raises
`ValueError` before anything is loaded. -/
def make_action (is_url : Bool) (path : String) (to_type : String)
    (s : GSchema) (fuel depth : Nat) : List Eff × Except RunError Nat :=
  if is_url && to_type == ("sqlmap") then
    runEmit s fuel depth true ("txt")
  else if is_url || pathSuffix path == ("json") || pathSuffix path == ("graphql") then
    match load_query s fuel depth false with
    | (_, some e) => ([Eff.loadSchema], Except.error (RunError.varsErr e))
    | (rs, none) =>
      if to_type == ("json") then
        (Eff.loadSchema :: rs.map (fun r => Eff.writeFile r.operationName ("json")),
         Except.ok rs.length)
      else if to_type == ("gql") then
        (Eff.loadSchema :: rs.map (fun r => Eff.writeFile r.operationName ("gql")),
         Except.ok rs.length)
      else ([Eff.loadSchema], Except.error RunError.unsupportedType)
  else ([], Except.error RunError.valueError)

/-- Spec-side comma join ("comma-joined in declaration order"). -/
def commaJoin : List String → String
  | [] => ("")
  | [x] => x
  | x :: y :: ys => x ++ (", ") ++ commaJoin (y :: ys)

/-- Spec-side outer argument clause: `($name: TypeRef, ...)`. -/
def varsClause (args : List (String × String)) : String :=
  ("(") ++ commaJoin (args.map (fun kt => ("$") ++ kt.1 ++ (": ") ++ kt.2)) ++ (")")

/-- Spec-side inner argument clause: `(name: $name, ...)`. -/
def resolveClause (args : List (String × String)) : String :=
  ("(") ++ commaJoin (args.map (fun kt => kt.1 ++ (": $") ++ kt.1)) ++ (")")

/-- One record of the Root Enumeration Driver, as the spec words it: query
from the document synthesizer, variables from the default-value synthesizer
over the field's arguments, operationName the field name. -/
def mkRecord (s : GSchema) (fuel depth : Nat) (m : Bool) (tn : String)
    (kf : String × GField) : Except VarsError Record :=
  match get_variables fuel s kf.2.args [] m with
  | Except.error e => Except.error e
  | Except.ok vars =>
    Except.ok { query := get_query_str s tn kf.1 kf.2 depth,
                variablesMap := vars, operationName := kf.1 }

/-- Fail-fast map over a list in `Except`. -/
def exceptMap (f : α → Except ε β) : List α → Except ε (List β)
  | [] => Except.ok []
  | a :: as =>
    match f a with
    | Except.error e => Except.error e
    | Except.ok b =>
      match exceptMap f as with
      | Except.error e => Except.error e
      | Except.ok bs => Except.ok (b :: bs)

/-- Spec-side records of one operation kind: an absent root type contributes
nothing (skipped silently); a present one yields exactly one record per
declared field, in declaration order. -/
def rootSpec (s : GSchema) (fuel depth : Nat) (m : Bool) (tn : String) :
    Option (List (String × GField)) → Except VarsError (List Record)
  | none => Except.ok []
  | some fields => exceptMap (mkRecord s fuel depth m tn) fields

/-- Spec-side Root Enumeration Driver (for the refinement claim about
`load_query`): the three operation kinds in the order query, mutation,
subscription. -/
def driverSpec (s : GSchema) (fuel depth : Nat) (m : Bool) :
    Except VarsError (List Record) :=
  match rootSpec s fuel depth m ("query") s.query_type with
  | Except.error e => Except.error e
  | Except.ok a =>
    match rootSpec s fuel depth m ("mutation") s.mutation_type with
    | Except.error e => Except.error e
    | Except.ok b =>
      match rootSpec s fuel depth m ("subscription") s.subscription_type with
      | Except.error e => Except.error e
      | Except.ok c => Except.ok (a ++ b ++ c)

/-- Field names of an optional root type, in declaration order. -/
def optNames : Option (List (String × GField)) → List String
  | none => []
  | some fs => fs.map (fun kf => kf.1)

/-- All root-field names a run enumerates, in enumeration order. -/
def rootNames (s : GSchema) : List String :=
  optNames s.query_type ++ optNames s.mutation_type ++ optNames s.subscription_type

/-- Schema for the sibling-discarding run: an `Int` scalar and an input
object `In` with one field `x: Int`. -/
def s1 : GSchema :=
  { type_map :=
      [(("Int"), TypeDef.scalar ("Int")),
       (("In"), TypeDef.inputObject ("In") [(("x"), ("Int"))])],
    query_type := none, mutation_type := none, subscription_type := none }

/-- Schema whose type map holds only `Int` and a plain object type `Obj`
(present but neither InputObject nor scalar-named). -/
def s2 : GSchema :=
  { type_map :=
      [(("Int"), TypeDef.scalar ("Int")),
       (("Obj"), TypeDef.object ("Obj") [])],
    query_type := none, mutation_type := none, subscription_type := none }

/-- The spec's depth-bound example schema:
`Query { a: A }  type A { b: B }  type B { c: Int }`. -/
def s3 : GSchema :=
  { type_map :=
      [(("Int"), TypeDef.scalar ("Int")),
       (("A"), TypeDef.object ("A") [(("b"), { typeRef := ("B"), args := [] })]),
       (("B"), TypeDef.object ("B") [(("c"), { typeRef := ("Int"), args := [] })])],
    query_type := some [(("a"), { typeRef := ("A"), args := [] })],
    mutation_type := none, subscription_type := none }

/-- The fields of type `A` in `s3`. -/
def aFields : List (String × GField) :=
  [(("b"), { typeRef := ("B"), args := [] })]

/-- Schema holding the eight known scalar types. -/
def s5 : GSchema :=
  { type_map :=
      [(("Int"), TypeDef.scalar ("Int")),
       (("String"), TypeDef.scalar ("String")),
       (("ID"), TypeDef.scalar ("ID")),
       (("Date"), TypeDef.scalar ("Date")),
       (("DateTime"), TypeDef.scalar ("DateTime")),
       (("Float"), TypeDef.scalar ("Float")),
       (("Boolean"), TypeDef.scalar ("Boolean")),
       (("JSON"), TypeDef.scalar ("JSON"))],
    query_type := none, mutation_type := none, subscription_type := none }

/-- Minimal end-to-end schema: one query field `hello: String`, no
arguments, no mutation or subscription root. -/
def sW : GSchema :=
  { type_map := [(("String"), TypeDef.scalar ("String"))],
    query_type := some [(("hello"), { typeRef := ("String"), args := [] })],
    mutation_type := none, subscription_type := none }

/-- Strings with equal character data are equal. -/
theorem strext {a b : String} (h : a.data = b.data) : a = b := by
  cases a; cases b; exact congrArg String.mk h

/-- `findIdx?` finds the first marker after a prefix free of matches. -/
theorem findIdx?_marker (p : Char → Bool) (l1 l2 : List Char) (c : Char)
    (h : ∀ x ∈ l1, p x = false) (hc : p c = true) :
    ∀ i, List.findIdx? p (l1 ++ c :: l2) i = some (l1.length + i) := by
  induction l1 with
  | nil =>
    intro i
    simp [List.findIdx?_cons, hc]
  | cons a l1 ih =>
    intro i
    have ha : p a = false := h a (by simp)
    have h1 : ∀ x ∈ l1, p x = false := fun x hx => h x (by simp [hx])
    simp only [List.cons_append, List.findIdx?_cons, ha]
    rw [if_neg (by simp)]
    rw [ih h1 (i + 1)]
    congr 1
    simp
    omega

/-- `pyFind` on a string whose data decomposes around the first `c`. -/
theorem pyFind_data (t : String) (c : Char) (l1 l2 : List Char)
    (h : t.data = l1 ++ c :: l2) (hnot : c ∉ l1) :
    pyFind t c = Int.ofNat l1.length := by
  unfold pyFind
  rw [h]
  rw [findIdx?_marker (fun x => x == c) l1 l2 c
        (fun x hx => by simp; intro he; exact absurd (he ▸ hx) hnot) (by simp) 0]
  simp

/-- `pyFind` misses: no occurrence means `-1`. -/
theorem pyFind_none (t : String) (c : Char) (h : c ∉ t.data) :
    pyFind t c = -1 := by
  unfold pyFind
  have : List.findIdx? (fun x => x == c) t.data = none := by
    rw [List.findIdx?_eq_none_iff]
    intro x hx
    simp
    intro he
    exact absurd (he ▸ hx) h
  rw [this]

/-- `pyIdx` on a non-negative index is just clamping from above. -/
theorem pyIdx_ofNat (len n : Nat) : pyIdx len (Int.ofNat n) = n.min len := by
  unfold pyIdx
  simp only [Int.ofNat_eq_coe]
  rw [if_neg (Int.not_lt.mpr (Int.ofNat_nonneg n))]
  simp

/-- `pySlice` with the exact in-range bounds of a middle segment. -/
theorem pySlice_mid (t : String) (a mid b : List Char)
    (ht : t.data = a ++ mid ++ b) :
    pySlice t (Int.ofNat a.length) (Int.ofNat (a.length + mid.length))
      = String.mk mid := by
  apply strext
  show ((t.data.take
      (pyIdx t.data.length (Int.ofNat (a.length + mid.length)))).drop
      (pyIdx t.data.length (Int.ofNat a.length))) = mid
  rw [ht]
  have h1 : pyIdx (a ++ mid ++ b).length (Int.ofNat (a.length + mid.length))
      = a.length + mid.length := by
    rw [pyIdx_ofNat]
    simp [List.length_append]
  have h2 : pyIdx (a ++ mid ++ b).length (Int.ofNat a.length) = a.length := by
    rw [pyIdx_ofNat]
    simp [List.length_append]
  rw [h1, h2]
  rw [show a ++ mid ++ b = (a ++ mid) ++ b from by simp]
  rw [List.take_left' (by simp)]
  rw [List.drop_left' rfl]

/-- The bracketed case of `stripRef`: a string decomposing as
`pre [ mid ] post` with `[` first and `]` first at the shown positions
resolves to `mid` stripped of one trailing `!`, with the list flag set. -/
theorem stripRef_bracket (pre mid post t : String)
    (h1 : '[' ∉ pre.data) (h2 : ']' ∉ pre.data) (h3 : ']' ∉ mid.data)
    (ht : t.data = pre.data ++ '[' :: (mid.data ++ ']' :: post.data)) :
    stripRef t = (stripBang mid, true) := by
  have f1 : pyFind t '[' = Int.ofNat pre.data.length :=
    pyFind_data t '[' pre.data (mid.data ++ ']' :: post.data) ht h1
  have f2 : pyFind t ']' = Int.ofNat (pre.data.length + 1 + mid.data.length) := by
    have ht2 : t.data = (pre.data ++ '[' :: mid.data) ++ ']' :: post.data := by
      rw [ht]; simp
    have hn : ']' ∉ pre.data ++ '[' :: mid.data := by
      simp
      exact ⟨h2, h3⟩
    have := pyFind_data t ']' (pre.data ++ '[' :: mid.data) post.data ht2 hn
    rw [this]
    simp
    omega
  unfold stripRef
  rw [f1, f2]
  rw [if_neg (by simp)]
  have hsl : pySlice t (Int.ofNat pre.data.length + 1)
      (Int.ofNat (pre.data.length + 1 + mid.data.length)) = String.mk mid.data := by
    have ha : Int.ofNat pre.data.length + 1 = Int.ofNat (pre.data ++ ['[']).length := by
      simp
    have hb : Int.ofNat (pre.data.length + 1 + mid.data.length)
        = Int.ofNat ((pre.data ++ ['[']).length + mid.data.length) := by
      simp
    rw [ha, hb]
    exact pySlice_mid t (pre.data ++ ['[']) mid.data (']' :: post.data)
      (by rw [ht]; simp)
  rw [hsl]

/-- The bracket-free case of `stripRef`: only the trailing `!` is dropped
and the list flag stays false. -/
theorem stripRef_nobracket (t : String) (h : '[' ∉ t.data) :
    stripRef t = (stripBang t, false) := by
  unfold stripRef
  rw [pyFind_none t '[' h]
  rw [if_pos (by simp)]

/-- C4: the Type Reference Resolver sets isList=true and takes the substring
strictly between the first `[` and the first `]` when the string contains
`[`, otherwise sets isList=false and keeps the whole string; it then drops a
single trailing `!` and returns the remainder as the base name. In
particular `resolve("[User!]!") = ("User", true)`,
`resolve("String!") = ("String", false)`,
`resolve("Boolean") = ("Boolean", false)`, and only one level of bracket
wrapping is ever stripped (`resolve("[[User]]") = ("[User", true)`). -/
theorem C4_type_reference_resolver :
    (∀ pre mid post t : String,
      '[' ∉ pre.data → ']' ∉ pre.data → ']' ∉ mid.data →
      t.data = pre.data ++ '[' :: (mid.data ++ ']' :: post.data) →
      stripRef t =
        ((if mid.data.getLast? == some '!' then String.mk mid.data.dropLast
          else mid), true)) ∧
    (∀ t : String, '[' ∉ t.data →
      stripRef t =
        ((if t.data.getLast? == some '!' then String.mk t.data.dropLast
          else t), false)) ∧
    stripRef ("[User!]!") = (("User"), true) ∧
    stripRef ("String!") = (("String"), false) ∧
    stripRef ("Boolean") = (("Boolean"), false) ∧
    stripRef ("[[User]]") = (("[User"), true) := by
  refine ⟨?_, ?_, rfl, rfl, rfl, rfl⟩
  · intro pre mid post t h1 h2 h3 ht
    rw [stripRef_bracket pre mid post t h1 h2 h3 ht]
    rfl
  · intro t h
    rw [stripRef_nobracket t h]
    rfl

/-- C4 witness: the bracketed general case instantiated at `"[User!]!"`
(pre empty, mid `User!`, post `!`). -/
theorem C4_witness :
    stripRef ("[User!]!") =
      ((if ("User!").data.getLast? == some '!'
        then String.mk ("User!").data.dropLast else ("User!")), true) :=
  C4_type_reference_resolver.1 ("") ("User!") ("!") ("[User!]!")
    (by decide) (by decide) (by decide) (by decide)

/-- C1: the claim states the synthesized tree holds exactly one entry per
input field, the InputObject case inserting its sub-tree under the field's
key without discarding entries of earlier siblings. The code instead REBINDS
the accumulator to the one-entry dict `{k: variables}` (src.py lines
156-159), so for the mapping `{a: Int, b: In}` (with `input In { x: Int }`)
the entry for `a` is dropped from the top level and leaks into `b`'s
sub-tree: the result is `{b: {a: 0, x: 0}}` with the single key `b`, not
`{a: 0, b: {x: 0}}`. -/
theorem C1_sibling_entries_discarded :
    get_variables 10 s1 [(("a"), ("Int")), (("b"), ("In"))] [] false
      = Except.ok [(("b"), GVal.vObj [(("a"), GVal.vInt 0), (("x"), GVal.vInt 0)])] ∧
    (get_variables 10 s1 [(("a"), ("Int")), (("b"), ("In"))] [] false).map
        (fun l => l.map (fun p => p.1))
      = Except.ok [("b")] :=
  ⟨rfl, rfl⟩

/-- The fields of type `B` in `s3`. -/
def bFields : List (String × GField) :=
  [(("c"), { typeRef := ("Int"), args := [] })]

/-- C3: the Field Selector, per field in declaration order, emits
`name{ ... }` around the recursive selection at depth-1 when the resolved
return type is an Object and the depth budget is nonzero, skips the field
entirely (no leaf fallback) when it is an Object at depth 0, and emits the
bare field name otherwise; on the spec's example schema, selecting on `A`
yields `[]` at depth 0 and `["b{", "c", "}"]` at depth 1. -/
theorem C3_field_selector :
    (∀ (s : GSchema) (k : String) (v : GField) (rest : List (String × GField))
       (tn : String) (sub : List (String × GField)) (d : Nat),
      get_return_obj s v.typeRef = some (TypeDef.object tn sub) → d ≠ 0 →
      find_fields s d ((k, v) :: rest)
        = ((k ++ ("\x7b")) :: find_fields s (d - 1) sub)
          ++ (("\x7d") :: find_fields s d rest)) ∧
    (∀ (s : GSchema) (k : String) (v : GField) (rest : List (String × GField))
       (tn : String) (sub : List (String × GField)),
      get_return_obj s v.typeRef = some (TypeDef.object tn sub) →
      find_fields s 0 ((k, v) :: rest) = find_fields s 0 rest) ∧
    (∀ (s : GSchema) (k : String) (v : GField) (rest : List (String × GField))
       (d : Nat),
      (∀ tn sub, get_return_obj s v.typeRef ≠ some (TypeDef.object tn sub)) →
      find_fields s d ((k, v) :: rest) = k :: find_fields s d rest) ∧
    find_fields s3 0 aFields = [] ∧
    find_fields s3 1 aFields = [("b\x7b"), ("c"), ("\x7d")] := by
  refine ⟨?_, ?_, ?_, rfl, rfl⟩
  · intro s k v rest tn sub d hobj hd
    obtain ⟨d2, rfl⟩ := Nat.exists_eq_succ_of_ne_zero hd
    simp [find_fields, hobj]
  · intro s k v rest tn sub hobj
    simp [find_fields, hobj]
  · intro s k v rest d h
    cases hobj : get_return_obj s v.typeRef with
    | none => cases d <;> simp [find_fields, hobj]
    | some td =>
      cases td with
      | scalar n => cases d <;> simp [find_fields, hobj]
      | inputObject n fs => cases d <;> simp [find_fields, hobj]
      | object tn sub => exact absurd hobj (h tn sub)

/-- C3 witness: the expansion case applied on the example schema to the
field `b` of `A` at depth 1. -/
theorem C3_witness :
    find_fields s3 1 aFields
      = ((("b") ++ ("\x7b")) :: find_fields s3 0 bFields)
        ++ (("\x7d") :: find_fields s3 1 []) :=
  C3_field_selector.1 s3 ("b") { typeRef := ("B"), args := [] } [] ("B") bFields 1
    rfl (by decide)

/-- C5: the scalar step of the Default Value Synthesizer. The general part:
a field whose stripped reference names a scalar type of the schema with a
known default inserts exactly that default under the field's key — replaced
by the wildcard `"*"` when scan mode is on and the name is in the sqlmap
list, and wrapped in a one-element list exactly when the field is
list-typed — and the loop continues on the remaining fields. The closed
parts pin the whole table and both modes on one-field runs: Int→0,
String→"", ID→0, Date→"2022-01-24", DateTime→"2022-01-24", Float→0.0,
Boolean→false, JSON→"JSON"; scan mode turns String, Date and JSON (but not
Int, Boolean or DateTime) into "*"; list types wrap the value. -/
theorem C5_scalar_defaults :
    (∀ (s : GSchema) (m : Bool) (f : Nat) (k tref : String)
       (rest : List (String × String)) (dm : List (String × GVal))
       (name : String) (isL : Bool) (d : GVal),
      stripRef tref = (name, isL) →
      lookupType s name = some (TypeDef.scalar name) →
      scalarLookup name = some d →
      get_vars_loop s m (Nat.succ f) ((k, tref) :: rest) dm
        = get_vars_loop s m f rest (dictInsert dm k
            (if isL then
               GVal.vList [if m && sqlmap_regx.contains name then GVal.vStr ("*") else d]
             else (if m && sqlmap_regx.contains name then GVal.vStr ("*") else d)))) ∧
    get_variables 2 s5 [(("f"), ("Int"))] [] false = Except.ok [(("f"), GVal.vInt 0)] ∧
    get_variables 2 s5 [(("f"), ("String"))] [] false = Except.ok [(("f"), GVal.vStr (""))] ∧
    get_variables 2 s5 [(("f"), ("ID"))] [] false = Except.ok [(("f"), GVal.vInt 0)] ∧
    get_variables 2 s5 [(("f"), ("Date"))] [] false
      = Except.ok [(("f"), GVal.vStr ("2022-01-24"))] ∧
    get_variables 2 s5 [(("f"), ("DateTime"))] [] false
      = Except.ok [(("f"), GVal.vStr ("2022-01-24"))] ∧
    get_variables 2 s5 [(("f"), ("Float"))] [] false
      = Except.ok [(("f"), GVal.vFloat 0)] ∧
    get_variables 2 s5 [(("f"), ("Boolean"))] [] false
      = Except.ok [(("f"), GVal.vBool false)] ∧
    get_variables 2 s5 [(("f"), ("JSON"))] [] false
      = Except.ok [(("f"), GVal.vStr ("JSON"))] ∧
    get_variables 2 s5 [(("f"), ("String"))] [] true
      = Except.ok [(("f"), GVal.vStr ("*"))] ∧
    get_variables 2 s5 [(("f"), ("Date"))] [] true
      = Except.ok [(("f"), GVal.vStr ("*"))] ∧
    get_variables 2 s5 [(("f"), ("JSON"))] [] true
      = Except.ok [(("f"), GVal.vStr ("*"))] ∧
    get_variables 2 s5 [(("f"), ("Int"))] [] true
      = Except.ok [(("f"), GVal.vInt 0)] ∧
    get_variables 2 s5 [(("f"), ("Boolean"))] [] true
      = Except.ok [(("f"), GVal.vBool false)] ∧
    get_variables 2 s5 [(("f"), ("DateTime"))] [] true
      = Except.ok [(("f"), GVal.vStr ("2022-01-24"))] ∧
    get_variables 2 s5 [(("f"), ("[String!]!"))] [] false
      = Except.ok [(("f"), GVal.vList [GVal.vStr ("")])] ∧
    get_variables 2 s5 [(("f"), ("[String!]!"))] [] true
      = Except.ok [(("f"), GVal.vList [GVal.vStr ("*")])] ∧
    get_variables 2 s5 [(("f"), ("Int!"))] [] false
      = Except.ok [(("f"), GVal.vInt 0)] := by
  refine ⟨?_, rfl, rfl, rfl, rfl, rfl, rfl, rfl, rfl, rfl, rfl, rfl, rfl, rfl,
          rfl, rfl, rfl, rfl⟩
  intro s m f k tref rest dm name isL d hstrip hlook hscal
  simp [get_vars_loop, hstrip, hlook, hscal, TypeDef.tname]

/-- C5 witness: the general scalar step applied to a concrete String field
in scan mode. -/
theorem C5_witness :
    get_vars_loop s5 true 2 [(("f"), ("String"))] []
      = get_vars_loop s5 true 1 [] (dictInsert [] ("f")
          (if false then
             GVal.vList [if true && sqlmap_regx.contains ("String")
                          then GVal.vStr ("*") else GVal.vStr ("")]
           else (if true && sqlmap_regx.contains ("String")
                 then GVal.vStr ("*") else GVal.vStr ("")))) :=
  C5_scalar_defaults.1 s5 true 1 ("f") ("String") [] [] ("String") false
    (GVal.vStr ("")) rfl rfl rfl

/-- C10: the Field Selector never fails on an unresolvable return type: the
type-map lookup of the stripped base name yields `none` (no exception), and
the field is emitted as a bare leaf name for any depth budget. -/
theorem C10_unresolvable_is_leaf :
    (∀ (s : GSchema) (t : String),
      lookupType s (stripRef t).1 = none → get_return_obj s t = none) ∧
    (∀ (s : GSchema) (k : String) (v : GField) (rest : List (String × GField))
       (d : Nat),
      lookupType s (stripRef v.typeRef).1 = none →
      find_fields s d ((k, v) :: rest) = k :: find_fields s d rest) := by
  constructor
  · intro s t h
    unfold get_return_obj
    exact h
  · intro s k v rest d h
    have hobj : get_return_obj s v.typeRef = none := h
    cases d <;> simp [find_fields, hobj]

/-- C10 witness: a field whose base name `Missing` is absent from `s2`'s
type map is emitted as a bare leaf at depth 7. -/
theorem C10_witness :
    find_fields s2 7 [(("f"), { typeRef := ("Missing"), args := [] })]
      = ("f") :: find_fields s2 7 [] :=
  C10_unresolvable_is_leaf.2 s2 ("f") { typeRef := ("Missing"), args := [] } [] 7 rfl

/-- C2 counterexample: for a field whose base name `Missing` is absent from
the type map, synthesis fails with the AttributeError raised by
`type_obj.name` on `None` (src.py line 162) — an error that does NOT name
the unresolvable type — not with the naming TypeError of line 173. -/
theorem C2_counterexample :
    get_variables 5 s2 [(("f"), ("Missing"))] [] false
      = Except.error VarsError.attrError ∧
    (Except.error VarsError.attrError
        : Except VarsError (List (String × GVal)))
      ≠ Except.error (VarsError.typeError ("Missing")) :=
  ⟨rfl, by simp⟩

/-- C2 amended: an unresolvable field always aborts synthesis — with the
AttributeError (which does not name the type) when the base name is absent
from the type map, and with the TypeError naming the base name when the
looked-up type is neither an InputObject nor carries a known scalar name —
and the failing root field and every sibling root field processed after it
in the same run produce no record (records of earlier siblings stay
queued). -/
theorem C2_unresolvable_aborts :
    (∀ (s : GSchema) (m : Bool) (f : Nat) (k tref : String)
       (rest : List (String × String)) (dm : List (String × GVal)),
      lookupType s (stripRef tref).1 = none →
      get_vars_loop s m (Nat.succ f) ((k, tref) :: rest) dm
        = Except.error VarsError.attrError) ∧
    (∀ (s : GSchema) (m : Bool) (f : Nat) (k tref : String)
       (rest : List (String × String)) (dm : List (String × GVal))
       (t : TypeDef),
      lookupType s (stripRef tref).1 = some t →
      (∀ n fs, t ≠ TypeDef.inputObject n fs) →
      scalarLookup t.tname = none →
      get_vars_loop s m (Nat.succ f) ((k, tref) :: rest) dm
        = Except.error (VarsError.typeError (stripRef tref).1)) ∧
    (∀ (s : GSchema) (fuel depth : Nat) (m : Bool) (tn k : String)
       (fobj : GField) (frest : List (String × GField)) (e : VarsError),
      get_variables fuel s fobj.args [] m = Except.error e →
      load_fields s fuel depth m tn ((k, fobj) :: frest) = ([], some e)) ∧
    (∀ (s : GSchema) (fuel depth : Nat) (m : Bool)
       (fields : List (String × GField)) (rs : List Record) (e : VarsError),
      s.query_type = some fields →
      load_fields s fuel depth m ("query") fields = (rs, some e) →
      load_query s fuel depth m = (rs, some e)) := by
  refine ⟨?_, ?_, ?_, ?_⟩
  · intro s m f k tref rest dm h
    simp [get_vars_loop, h]
  · intro s m f k tref rest dm t hl hni hns
    cases t with
    | inputObject n fs => exact absurd rfl (hni n fs)
    | scalar n => simp [get_vars_loop, hl, hns]
    | object n fs => simp [get_vars_loop, hl, hns]
  · intro s fuel depth m tn k fobj frest e h
    simp [load_fields, h]
  · intro s fuel depth m fields rs e hq hf
    unfold load_query load_roots
    rw [hq]
    simp only []
    rw [hf]

/-- C2 witness: the absent-name case applied to the concrete field
`f: Missing` against `s2`. -/
theorem C2_witness :
    get_vars_loop s2 false (Nat.succ 4) [(("f"), ("Missing"))] []
      = Except.error VarsError.attrError :=
  C2_unresolvable_aborts.1 s2 false 4 ("f") ("Missing") [] [] rfl

/-- C9: the Default Value Synthesizer is deterministic — two calls on
structurally equal inputs (same schema, field mapping, scan mode and fuel)
produce structurally identical trees. In the embedding `get_variables` is a
pure function of its arguments, mirroring the Python code, whose only data
dependencies are its arguments and the fixed class-level tables and whose
dict iteration order is the deterministic insertion order was already the
modelling assumption. -/
theorem C9_synthesizer_deterministic :
    ∀ (fuel fuel2 : Nat) (sa sb : GSchema) (items items2 : List (String × String))
      (m m2 : Bool),
      fuel = fuel2 → sa = sb → items = items2 → m = m2 →
      get_variables fuel sa items [] m = get_variables fuel2 sb items2 [] m2 := by
  intro fuel fuel2 sa sb items items2 m m2 h1 h2 h3 h4
  subst h1; subst h2; subst h3; subst h4
  rfl

/-- C9 witness: the two runs on the concrete scan-mode mapping coincide. -/
theorem C9_witness :
    get_variables 3 s5 [(("f"), ("String"))] [] true
      = get_variables 3 s5 [(("f"), ("String"))] [] true :=
  C9_synthesizer_deterministic 3 3 s5 s5 [(("f"), ("String"))]
    [(("f"), ("String"))] true true rfl rfl rfl rfl

/-- String append is associative. -/
theorem strAppend_assoc (a b c : String) : a ++ b ++ c = a ++ (b ++ c) := by
  apply strext
  simp [String.data_append]

/-- The empty string is a left identity. -/
theorem strEmpty_append (a : String) : ("") ++ a = a := by
  apply strext
  simp [String.data_append]

/-- The empty string is a right identity. -/
theorem strAppend_empty (a : String) : a ++ ("") = a := by
  apply strext
  simp [String.data_append]

/-- A left fold of appends is the accumulator followed by the pieces. -/
theorem foldl_concatAll {α : Type} (g : α → String) (l : List α) :
    ∀ acc : String,
      l.foldl (fun a x => a ++ g x) acc = acc ++ concatAll (l.map g) := by
  induction l with
  | nil =>
    intro acc
    simp [concatAll, strAppend_empty]
  | cons x xs ih =>
    intro acc
    simp only [List.foldl_cons, List.map_cons, concatAll]
    rw [ih (acc ++ g x)]
    rw [strAppend_assoc]

/-- Concatenating comma-terminated pieces is the comma join followed by one
trailing separator. -/
theorem concatAll_comma (ss : List String) (h : ss ≠ []) :
    concatAll (ss.map (fun x => x ++ (", "))) = commaJoin ss ++ (", ") := by
  induction ss with
  | nil => exact absurd rfl h
  | cons x xs ih =>
    cases xs with
    | nil => simp [concatAll, commaJoin, strAppend_empty]
    | cons y ys =>
      simp only [List.map_cons, concatAll, commaJoin] at ih ⊢
      rw [ih (by simp)]
      simp [strAppend_assoc]

/-- A string with the trailing separator is never empty. -/
theorem trailNe (a : String) : a ++ (", ") ≠ ("") := by
  intro h
  have hd := congrArg String.data h
  rw [String.data_append] at hd
  simp at hd

/-- Python `x[0:-2]` strips exactly a trailing `", "`. -/
theorem pySlice_dropTrail (a : String) : pySlice (a ++ (", ")) 0 (-2) = a := by
  apply strext
  show (((a ++ (", ")).data.take
      (pyIdx (a ++ (", ")).data.length (-2))).drop
      (pyIdx (a ++ (", ")).data.length 0)) = a.data
  have hd : (a ++ (", ")).data = a.data ++ [',', ' '] := by
    rw [String.data_append]
  rw [hd]
  have h1 : pyIdx (a.data ++ [',', ' ']).length (-2) = a.data.length := by
    unfold pyIdx
    rw [if_pos (by decide)]
    simp [List.length_append]
  have h2 : pyIdx (a.data ++ [',', ' ']).length 0 = 0 := by
    unfold pyIdx
    rw [if_neg (by decide)]
    simp
  rw [h1, h2]
  rw [List.take_left' rfl]
  simp

/-- `varsFold` on a nonempty argument list is the comma join of the
`$name: TypeRef` pieces plus one trailing separator. -/
theorem varsFold_eq (args : List (String × String)) (h : args ≠ []) :
    varsFold args
      = commaJoin (args.map (fun kt => ("$") ++ kt.1 ++ (": ") ++ kt.2)) ++ (", ") := by
  unfold varsFold
  rw [foldl_concatAll (fun kt => ("$") ++ kt.1 ++ (": ") ++ kt.2 ++ (", ")) args ("")]
  rw [strEmpty_append]
  have hm : args.map (fun kt => ("$") ++ kt.1 ++ (": ") ++ kt.2 ++ (", "))
      = (args.map (fun kt => ("$") ++ kt.1 ++ (": ") ++ kt.2)).map
          (fun x => x ++ (", ")) := by
    simp [List.map_map]
  rw [hm]
  rw [concatAll_comma _ (by simpa using h)]

/-- `resolveFold` on a nonempty argument list is the comma join of the
`name: $name` pieces plus one trailing separator. -/
theorem resolveFold_eq (args : List (String × String)) (h : args ≠ []) :
    resolveFold args
      = commaJoin (args.map (fun kt => kt.1 ++ (": $") ++ kt.1)) ++ (", ") := by
  unfold resolveFold
  rw [foldl_concatAll (fun kt => kt.1 ++ (": $") ++ kt.1 ++ (", ")) args ("")]
  rw [strEmpty_append]
  have hm : args.map (fun kt => kt.1 ++ (": $") ++ kt.1 ++ (", "))
      = (args.map (fun kt => kt.1 ++ (": $") ++ kt.1)).map
          (fun x => x ++ (", ")) := by
    simp [List.map_map]
  rw [hm]
  rw [concatAll_comma _ (by simpa using h)]

/-- `get_query_str` with a nonempty argument list renders the template with
both comma-joined clauses present. -/
theorem get_query_str_args (s : GSchema) (t n : String) (fobj : GField)
    (d : Nat) (h : fobj.args ≠ []) :
    get_query_str s t n fobj d
      = query_template t n (some (varsClause fobj.args))
          (some (resolveClause fobj.args)) (selectionOf s fobj d) := by
  unfold get_query_str
  have hv := varsFold_eq fobj.args h
  have hr := resolveFold_eq fobj.args h
  rw [hv, hr]
  have hb : ((commaJoin (fobj.args.map
      (fun kt => ("$") ++ kt.1 ++ (": ") ++ kt.2)) ++ (", ")) == ("")) = false :=
    beq_eq_false_iff_ne.mpr (trailNe _)
  rw [hb]
  simp only [Bool.false_eq_true, if_false]
  rw [pySlice_dropTrail, pySlice_dropTrail]
  rfl

/-- `get_query_str` with no arguments renders the template with both
clauses omitted (`None`). -/
theorem get_query_str_noargs (s : GSchema) (t n : String) (fobj : GField)
    (d : Nat) (h : fobj.args = []) :
    get_query_str s t n fobj d
      = query_template t n none none (selectionOf s fobj d) := by
  unfold get_query_str
  rw [h]
  rfl

/-- The rendered document contains the outer variable-declaration clause as
a contiguous substring. -/
theorem query_template_has_vars (t n v r : String) (sel : List String)
    (hr : r ≠ ("")) :
    ∃ p q, query_template t n (some v) (some r) sel = p ++ (v ++ q) := by
  refine ⟨(" ") ++ t ++ (" ") ++ n ++ (" "),
    ("\x7b\n        ") ++ n ++ ((" ") ++ r) ++
      (if sel.isEmpty then ("")
       else ("\x7b\n                 ") ++
         concatAll (sel.map (fun a => (" ") ++ a ++ ("\n                 "))) ++
         ("\x7d\n             ")) ++ ("\n        \x7d\n        "), ?_⟩
  unfold query_template
  have hb : (r == ("")) = false := beq_eq_false_iff_ne.mpr hr
  apply strext
  simp [String.data_append, List.append_assoc, hb]

/-- The rendered document contains the inner variable-binding clause as a
contiguous substring. -/
theorem query_template_has_resolve (t n v r : String) (sel : List String)
    (hr : r ≠ ("")) :
    ∃ p q, query_template t n (some v) (some r) sel = p ++ (r ++ q) := by
  refine ⟨(" ") ++ t ++ (" ") ++ n ++ (" ") ++ v ++ ("\x7b\n        ") ++ n ++ (" "),
    (if sel.isEmpty then ("")
     else ("\x7b\n                 ") ++
       concatAll (sel.map (fun a => (" ") ++ a ++ ("\n                 "))) ++
       ("\x7d\n             ")) ++ ("\n        \x7d\n        "), ?_⟩
  unfold query_template
  have hb : (r == ("")) = false := beq_eq_false_iff_ne.mpr hr
  apply strext
  simp [String.data_append, List.append_assoc, hb]

/-- A parenthesized clause is never the empty string. -/
theorem parenNe (x : String) : ("(") ++ x ++ (")") ≠ ("") := by
  intro h
  have hd := congrArg String.data h
  simp [String.data_append] at hd

/-- The inner clause is never empty (it always carries its parentheses). -/
theorem resolveClause_ne (args : List (String × String)) :
    resolveClause args ≠ ("") := by
  unfold resolveClause
  exact parenNe _

/-- The example query field with arguments `{id: ID!, name: String}`. -/
def fEx : GField :=
  { typeRef := ("A"), args := [(("id"), ("ID!")), (("name"), ("String"))] }

/-- C6: for every root field with arguments the synthesized document
contains the outer clause `($name: TypeRef, ...)` and the inner clause
`(name: $name, ...)`, both comma-joined in declaration order — in
particular `{id: ID!, name: String}` yields `($id: ID!, $name: String)` and
`(id: $id, name: $name)`; with no arguments both parenthesized clauses are
omitted, and with an empty selection list the inner brace block is omitted
(the document reduces to the clause-free / block-free template shapes). -/
theorem C6_argument_rendering :
    (∀ (s : GSchema) (t n : String) (fobj : GField) (d : Nat),
      fobj.args ≠ [] →
      (∃ p q, get_query_str s t n fobj d = p ++ (varsClause fobj.args ++ q)) ∧
      (∃ p q, get_query_str s t n fobj d = p ++ (resolveClause fobj.args ++ q))) ∧
    varsClause [(("id"), ("ID!")), (("name"), ("String"))]
      = ("($id: ID!, $name: String)") ∧
    resolveClause [(("id"), ("ID!")), (("name"), ("String"))]
      = ("(id: $id, name: $name)") ∧
    (∀ (s : GSchema) (t n : String) (fobj : GField) (d : Nat),
      fobj.args = [] →
      get_query_str s t n fobj d
        = query_template t n none none (selectionOf s fobj d)) ∧
    (∀ t n : String,
      query_template t n none none []
        = (" ") ++ t ++ (" ") ++ n ++ (" ") ++ ("\x7b\n        ") ++ n
          ++ ("\n        \x7d\n        ")) ∧
    (∀ t n v r : String, r ≠ ("") →
      query_template t n (some v) (some r) []
        = (" ") ++ t ++ (" ") ++ n ++ (" ") ++ v ++ ("\x7b\n        ") ++ n
          ++ (" ") ++ r ++ ("\n        \x7d\n        ")) := by
  refine ⟨?_, rfl, rfl, ?_, ?_, ?_⟩
  · intro s t n fobj d h
    rw [get_query_str_args s t n fobj d h]
    constructor
    · exact query_template_has_vars t n _ _ _ (resolveClause_ne fobj.args)
    · exact query_template_has_resolve t n _ _ _ (resolveClause_ne fobj.args)
  · intro s t n fobj d h
    exact get_query_str_noargs s t n fobj d h
  · intro t n
    unfold query_template
    apply strext
    simp [String.data_append, List.append_assoc]
  · intro t n v r hr
    have hb : (r == ("")) = false := beq_eq_false_iff_ne.mpr hr
    unfold query_template
    apply strext
    simp [String.data_append, List.append_assoc, hb]

/-- C6 witness: both containment parts applied to the concrete field with
arguments `{id: ID!, name: String}` on the example schema. -/
theorem C6_witness :
    (∃ p q, get_query_str s3 ("query") ("a") fEx 1
        = p ++ (varsClause fEx.args ++ q)) ∧
    (∃ p q, get_query_str s3 ("query") ("a") fEx 1
        = p ++ (resolveClause fEx.args ++ q)) :=
  C6_argument_rendering.1 s3 ("query") ("a") fEx 1 (by decide)

/-- A run of `load_fields` that raised nothing produced exactly the
spec-side per-field records, one per field with the field's name. -/
theorem load_fields_ok (s : GSchema) (fuel depth : Nat) (m : Bool) (tn : String) :
    ∀ (fields : List (String × GField)) (rs : List Record),
      load_fields s fuel depth m tn fields = (rs, none) →
      exceptMap (mkRecord s fuel depth m tn) fields = Except.ok rs ∧
      rs.map (fun r => r.operationName) = fields.map (fun kf => kf.1) := by
  intro fields
  induction fields with
  | nil =>
    intro rs h
    simp [load_fields] at h
    subst h
    exact ⟨rfl, rfl⟩
  | cons kf rest ih =>
    intro rs h
    obtain ⟨k, fobj⟩ := kf
    cases hv : get_variables fuel s fobj.args [] m with
    | error e =>
      rw [load_fields, hv] at h
      simp at h
    | ok vars =>
      cases hl : load_fields s fuel depth m tn rest with
      | mk rs2 err =>
        rw [load_fields, hv, hl] at h
        cases err with
        | some e => simp at h
        | none =>
          have hrs : rs = Record.mk (get_query_str s tn k fobj depth) vars k :: rs2 := by
            have h2 := congrArg Prod.fst h
            simpa using h2.symm
          obtain ⟨ih1, ih2⟩ := ih rs2 hl
          subst hrs
          constructor
          · rw [exceptMap]
            rw [show mkRecord s fuel depth m tn (k, fobj)
                = Except.ok (Record.mk (get_query_str s tn k fobj depth) vars k) from by
              simp [mkRecord, hv]]
            rw [ih1]
          · simp [ih2]

/-- One step of `load_roots` in a run that raised nothing: the head root
contributes its spec-side records (nothing when absent) in front of the
records of the remaining kinds. -/
theorem load_roots_step (s : GSchema) (fuel depth : Nat) (m : Bool)
    (tn : String) (root : Option (List (String × GField)))
    (rest : List (String × Option (List (String × GField))))
    (rs : List Record)
    (h : load_roots s fuel depth m ((tn, root) :: rest) = (rs, none)) :
    ∃ rs1 rs2, rootSpec s fuel depth m tn root = Except.ok rs1 ∧
      load_roots s fuel depth m rest = (rs2, none) ∧
      rs = rs1 ++ rs2 ∧
      rs1.map (fun r => r.operationName) = optNames root := by
  cases root with
  | none =>
    rw [load_roots] at h
    exact ⟨[], rs, rfl, h, by simp, rfl⟩
  | some fields =>
    cases hlf : load_fields s fuel depth m tn fields with
    | mk rsf errf =>
      rw [load_roots, hlf] at h
      cases errf with
      | some e => simp at h
      | none =>
        cases hlr : load_roots s fuel depth m rest with
        | mk rs2 err2 =>
          rw [hlr] at h
          cases err2 with
          | some e => simp at h
          | none =>
            obtain ⟨h1, h2⟩ := load_fields_ok s fuel depth m tn fields rsf hlf
            refine ⟨rsf, rs2, ?_, rfl, ?_, ?_⟩
            · rw [rootSpec]
              exact h1
            · have := congrArg Prod.fst h
              simpa using this.symm
            · rw [h2]
              rfl

/-- C7: the Root Enumeration Driver iterates the kinds in the order query,
mutation, subscription; an absent root type is skipped silently; and a run
that raised nothing queued exactly one record per declared field of each
present root, in declaration order, with operationName the field name —
i.e. it produced exactly the spec-side driver's records. -/
theorem C7_root_enumeration :
    ∀ (s : GSchema) (fuel depth : Nat) (m : Bool) (rs : List Record),
      load_query s fuel depth m = (rs, none) →
      driverSpec s fuel depth m = Except.ok rs ∧
      rs.map (fun r => r.operationName) = rootNames s := by
  intro s fuel depth m rs h
  unfold load_query at h
  obtain ⟨r1, t1, hq, h1, hrs1, hn1⟩ :=
    load_roots_step s fuel depth m ("query") s.query_type _ rs h
  obtain ⟨r2, t2, hm2, h2, hrs2, hn2⟩ :=
    load_roots_step s fuel depth m ("mutation") s.mutation_type _ t1 h1
  obtain ⟨r3, t3, hs3, h3, hrs3, hn3⟩ :=
    load_roots_step s fuel depth m ("subscription") s.subscription_type _ t2 h2
  have ht3 : t3 = [] := by
    rw [load_roots] at h3
    have h4 := congrArg Prod.fst h3
    simpa using h4.symm
  subst ht3
  subst hrs3
  subst hrs2
  subst hrs1
  constructor
  · unfold driverSpec
    rw [hq, hm2, hs3]
    simp [List.append_assoc]
  · unfold rootNames
    simp [hn1, hn2, hn3]

/-- C7 witness: the driver refinement applied to the concrete one-field
schema `sW` (query root `hello`, no mutation/subscription root). -/
theorem C7_witness :
    driverSpec sW 3 1 false = Except.ok (load_query sW 3 1 false).1 ∧
    (load_query sW 3 1 false).1.map (fun r => r.operationName) = rootNames sW :=
  ⟨(C7_root_enumeration sW 3 1 false (load_query sW 3 1 false).1 rfl).1,
   (C7_root_enumeration sW 3 1 false (load_query sW 3 1 false).1 rfl).2⟩

/-- C8: an unsupported output kind — sqlmap for a non-URL source, or any
kind outside {json, gql, sqlmap} — makes the run raise before any output
file is written (the effect trace holds no write); and a non-URL source
path whose suffix is neither `json` nor `graphql` raises the invalid-source
ValueError before any schema is loaded (the effect trace is empty). -/
theorem C8_unsupported_fails_fast :
    (∀ (path to_type : String) (s : GSchema) (fuel depth : Nat),
      to_type = ("sqlmap") →
      (∃ er, (make_action false path to_type s fuel depth).2 = Except.error er) ∧
      (make_action false path to_type s fuel depth).1.all
        (fun ef => ef.isWrite == false) = true) ∧
    (∀ (is_url : Bool) (path to_type : String) (s : GSchema) (fuel depth : Nat),
      to_type ≠ ("json") → to_type ≠ ("gql") → to_type ≠ ("sqlmap") →
      (∃ er, (make_action is_url path to_type s fuel depth).2 = Except.error er) ∧
      (make_action is_url path to_type s fuel depth).1.all
        (fun ef => ef.isWrite == false) = true) ∧
    (∀ (path to_type : String) (s : GSchema) (fuel depth : Nat),
      pathSuffix path ≠ ("json") → pathSuffix path ≠ ("graphql") →
      make_action false path to_type s fuel depth
        = ([], Except.error RunError.valueError)) := by
  refine ⟨?_, ?_, ?_⟩
  · intro path to_type s fuel depth ht
    subst ht
    by_cases hj : pathSuffix path = ("json")
    · cases hload : load_query s fuel depth false with
      | mk rs err =>
        cases err with
        | some e => simp [make_action, hj, hload, Eff.isWrite]
        | none => simp [make_action, hj, hload, Eff.isWrite]
    · by_cases hg : pathSuffix path = ("graphql")
      · cases hload : load_query s fuel depth false with
        | mk rs err =>
          cases err with
          | some e => simp [make_action, hj, hg, hload, Eff.isWrite]
          | none => simp [make_action, hj, hg, hload, Eff.isWrite]
      · simp [make_action, hj, hg]
  · intro is_url path to_type s fuel depth h1 h2 h3
    cases is_url with
    | true =>
      cases hload : load_query s fuel depth false with
      | mk rs err =>
        cases err with
        | some e => simp [make_action, h1, h2, h3, hload, Eff.isWrite]
        | none => simp [make_action, h1, h2, h3, hload, Eff.isWrite]
    | false =>
      by_cases hj : pathSuffix path = ("json")
      · cases hload : load_query s fuel depth false with
        | mk rs err =>
          cases err with
          | some e => simp [make_action, h1, h2, h3, hj, hload, Eff.isWrite]
          | none => simp [make_action, h1, h2, h3, hj, hload, Eff.isWrite]
      · by_cases hg : pathSuffix path = ("graphql")
        · cases hload : load_query s fuel depth false with
          | mk rs err =>
            cases err with
            | some e => simp [make_action, h1, h2, h3, hj, hg, hload, Eff.isWrite]
            | none => simp [make_action, h1, h2, h3, hj, hg, hload, Eff.isWrite]
        · simp [make_action, h1, h2, h3, hj, hg]
  · intro path to_type s fuel depth hj hg
    simp [make_action, hj, hg]

/-- C8 witness: a local `.json` source asked for sqlmap output errors with
no write effect, and an unrecognized `.txt` source errors with an empty
effect trace. -/
theorem C8_witness :
    ((∃ er, (make_action false ("a.json") ("sqlmap") sW 3 1).2 = Except.error er) ∧
     (make_action false ("a.json") ("sqlmap") sW 3 1).1.all
       (fun ef => ef.isWrite == false) = true) ∧
    make_action false ("a.txt") ("json") sW 3 1
      = ([], Except.error RunError.valueError) :=
  ⟨C8_unsupported_fails_fast.1 ("a.json") ("sqlmap") sW 3 1 rfl,
   C8_unsupported_fails_fast.2.2 ("a.txt") ("json") sW 3 1
     (by decide) (by decide)⟩
